import Mathlib

/-
  Verification development for the mcp-browse repository.

  Shallow embedding of the in-process resource registry / socket session
  store (src/src/utils/socket-instances.ts, src/src/utils/socket/*.ts,
  src/src/tools/browser.ts, src/src/utils/browser-instances.ts).

  Conventions of the embedding:
  * JS `Record<string, T>` objects are association lists `List (String × T)`;
    key lookup is `find?` on the key, assignment overwrites the entry,
    `delete` removes every entry with the key.
  * Timestamps (`new Date()`, `Date.now()`) are `Nat` milliseconds supplied
    as explicit `now` parameters at each point the code reads the clock.
  * Randomly generated word sequences (the `random-words` package) are
    explicit `words` parameters.
  * Results of external I/O (whether the underlying WebSocket send / close /
    connect succeeded) are explicit parameters of the transition functions.
-/

namespace McpBrowse

/-! ## Data model (src/src/utils/socket-instances.ts) -/

/-- `Message.type` field: 'sent' | 'received'. -/
inductive MsgType where
  | sent
  | received
deriving DecidableEq

/-- `Message.data` field: string | Buffer. -/
inductive MsgData where
  | text (s : String)
  | binary (s : String)
deriving DecidableEq

/-- The `Message` interface. `timestamp` is milliseconds since epoch. -/
structure Message where
  id : String
  type : MsgType
  data : MsgData
  timestamp : Nat
deriving DecidableEq

/-- `SocketInstance.status`: 'connecting' | 'open' | 'closing' | 'closed'
    (`opened` stands for the string 'open', a Lean keyword). -/
inductive SocketStatus where
  | connecting
  | opened
  | closing
  | closed
deriving DecidableEq

/-- The `SocketConfig` interface. `messageHistoryLimit = 0` models the JS
    falsy values (`0` and `undefined`) of the optional numeric field. -/
structure SocketConfig where
  autoReconnect : Bool
  maxReconnectAttempts : Nat
  reconnectInterval : Nat
  messageHistoryLimit : Nat
  protocols : List String
deriving DecidableEq

/-- The `SocketInstance` interface.  `readyState` mirrors the underlying
    `ws` handle's `socket.readyState` (0 CONNECTING, 1 OPEN, 2 CLOSING,
    3 CLOSED). -/
structure SocketInstance where
  id : String
  readyState : Nat
  url : String
  createdAt : Nat
  status : SocketStatus
  messageQueue : List Message
  config : SocketConfig
  reconnectAttempts : Nat
  lastActivity : Nat
deriving DecidableEq

/-- The global socket store `const sockets: Record<string, SocketInstance>`. -/
def SocketStore := List (String × SocketInstance)

instance : DecidableEq SocketStore := by
  unfold SocketStore
  infer_instance

/-! ## Record primitives -/

/-- JS `obj[k]` lookup on a record. -/
def recGet {α : Type} (st : List (String × α)) (k : String) : Option α :=
  (st.find? (fun p => p.1 == k)).map Prod.snd

/-- JS `obj[k] = v`: overwrite the entry if the key is present, append
    otherwise. -/
def recSet {α : Type} (st : List (String × α)) (k : String) (v : α) :
    List (String × α) :=
  if st.any (fun p => p.1 == k) then
    st.map (fun p => if p.1 == k then (k, v) else p)
  else
    st ++ [(k, v)]

/-- JS `delete obj[k]`. -/
def recDel {α : Type} (st : List (String × α)) (k : String) :
    List (String × α) :=
  st.filter (fun p => !(p.1 == k))

/-- In-place mutation of the entry at key `k` (`const x = obj[k]; if (x)
    { mutate x }`): rewrite the entry when present, identity otherwise. -/
def recUpd {α : Type} (st : List (String × α)) (k : String) (f : α → α) :
    List (String × α) :=
  st.map (fun p => if p.1 == k then (k, f p.2) else p)

/-! ## Store operations (src/src/utils/socket-instances.ts) -/

/-- `getSocket(id)`. -/
def getSocket (st : SocketStore) (id : String) : Option SocketInstance :=
  recGet st id

/-- `addSocket(instance)`. -/
def addSocket (st : SocketStore) (inst : SocketInstance) : SocketStore :=
  recSet st inst.id inst

/-- `removeSocket(id)`. -/
def removeSocket (st : SocketStore) (id : String) : SocketStore :=
  recDel st id

/-- The queue mutation inside `addMessage`: push the message, then enforce
    the history limit (`if (limit && queue.length > limit) splice(0,
    removeCount)`; a `limit` of 0 is falsy in JS, disabling eviction). -/
def pushWithLimit (limit : Nat) (q : List Message) (m : Message) :
    List Message :=
  if limit ≠ 0 ∧ limit < (q ++ [m]).length then
    (q ++ [m]).drop ((q ++ [m]).length - limit)
  else q ++ [m]

/-- Effect of `addMessage` on a single `SocketInstance`: push + evict and
    refresh `lastActivity = new Date()`. -/
def applyAddMessage (inst : SocketInstance) (m : Message) (now : Nat) :
    SocketInstance :=
  { inst with
      messageQueue := pushWithLimit inst.config.messageHistoryLimit
        inst.messageQueue m
      lastActivity := now }

/-- `addMessage(socketId, message)`; no-op when the id is absent. -/
def addMessage (st : SocketStore) (socketId : String) (m : Message)
    (now : Nat) : SocketStore :=
  recUpd st socketId (fun inst => applyAddMessage inst m now)

/-- `updateSocketStatus(socketId, status)`. -/
def updateSocketStatus (st : SocketStore) (socketId : String)
    (status : SocketStatus) (now : Nat) : SocketStore :=
  recUpd st socketId (fun inst => { inst with status := status, lastActivity := now })

/-- Iterated `addMessage` over a list of (message, clock reading) pairs. -/
def addMessages (st : SocketStore) (socketId : String)
    (ms : List (Message × Nat)) : SocketStore :=
  ms.foldl (fun s pm => addMessage s socketId pm.1 pm.2) st

/-! ## Record lemmas -/

theorem recGet_recUpd_self {α : Type} (st : List (String × α)) (k : String)
    (f : α → α) : recGet (recUpd st k f) k = (recGet st k).map f := by
  induction st with
  | nil => rfl
  | cons p rest ih =>
    by_cases h : p.1 = k
    · simp [recGet, recUpd, List.find?, h]
    · have hb : (p.1 == k) = false := beq_false_of_ne h
      simpa [recGet, recUpd, List.find?, hb] using ih

theorem recGet_recDel_self {α : Type} (st : List (String × α)) (k : String) :
    recGet (recDel st k) k = none := by
  induction st with
  | nil => rfl
  | cons p rest ih =>
    simp only [recDel, List.filter_cons] at ih ⊢
    by_cases h : p.1 = k
    · have hb : (p.1 == k) = true := beq_iff_eq.mpr h
      simp only [hb, Bool.not_true, if_false]
      exact ih
    · have hb : (p.1 == k) = false := beq_false_of_ne h
      simp only [hb, Bool.not_false, if_true]
      simp only [recGet, List.find?, hb] at ih ⊢
      exact ih

theorem recGet_recSet_self {α : Type} (st : List (String × α)) (k : String)
    (v : α) : recGet (recSet st k v) k = some v := by
  unfold recSet
  by_cases hmem : st.any (fun p => p.1 == k)
  · simp only [hmem, if_true]
    induction st with
    | nil => simp at hmem
    | cons p rest ih =>
      by_cases h : p.1 = k
      · simp [recGet, List.find?, h]
      · have hb : (p.1 == k) = false := beq_false_of_ne h
        have hmem' : rest.any (fun p => p.1 == k) := by
          simpa [List.any_cons, hb] using hmem
        simpa [recGet, List.find?, hb] using ih hmem'
  · simp only [hmem, if_false]
    induction st with
    | nil => simp [recGet, List.find?]
    | cons p rest ih =>
      have hb : (p.1 == k) = false := by
        by_contra hcon
        have : (p.1 == k) = true := by
          cases hx : (p.1 == k) <;> simp_all
        exact hmem (by simp [List.any_cons, this])
      have hmem' : ¬ rest.any (fun p => p.1 == k) := by
        intro hc
        exact hmem (by simp [List.any_cons, hc])
      simpa [recGet, List.find?, hb] using ih hmem'

/-! ## Identifier generators (src/src/utils/socket-instances.ts; the
    random word sequence is an explicit parameter) -/

/-- `generateSocketId()`: `socket-` followed by four random words. -/
def generateSocketId (words : String) : String := "socket-" ++ words

/-- `generateMessageId()`: `msg-` followed by three random words. -/
def generateMessageId (words : String) : String := "msg-" ++ words

/-! ## Sending messages (src/src/utils/socket/send.ts) -/

/-- The result object of `sendMessage`. -/
structure SendResult where
  success : Bool
  error : Option String
  messageId : Option String
deriving DecidableEq

/-- `sendMessage(params)` from src/src/utils/socket/send.ts.  `message` is
    the already-serialized payload text (object payloads go through
    `JSON.stringify`, an external collaborator); `sendError` is the error
    the underlying `socket.send` callback reports, `none` on success. -/
def sendMessage (st : SocketStore) (socketId : String) (message : String)
    (binary : Bool) (msgWords : String) (now : Nat)
    (sendError : Option String) : SendResult × SocketStore :=
  match getSocket st socketId with
  | none =>
      ({ success := false
         error := some ("Socket with ID " ++ socketId ++ " not found")
         messageId := none }, st)
  | some inst =>
    if inst.status ≠ SocketStatus.opened then
      ({ success := false
         error := some "Socket is not open"
         messageId := none }, st)
    else if inst.readyState ≠ 1 then
      ({ success := false
         error := some "WebSocket is not in OPEN state"
         messageId := none }, st)
    else
      let messageData :=
        if binary then MsgData.binary message else MsgData.text message
      let messageId := generateMessageId msgWords
      match sendError with
      | some e =>
          ({ success := false, error := some e, messageId := some messageId }, st)
      | none =>
          let sentMessage : Message :=
            { id := messageId
              type := MsgType.sent
              data := messageData
              timestamp := now }
          ({ success := true, error := none, messageId := some messageId },
           addMessage st socketId sentMessage now)

/-! ## Receiving messages (src/src/utils/socket-instances.ts `getMessages`,
    src/src/utils/socket/receive.ts `receiveMessages`) -/

/-- The `action` parameter of `getMessages` / `receiveMessages`:
    'get-latest' | 'get-all' | 'get-since'. -/
inductive ReceiveAction where
  | getLatest
  | getAll
  | getSince
deriving DecidableEq

/-- `getMessages(socketId, action, since?, clearAfterRead?)`: returns the
    selected messages and the store after the optional queue clear.
    `since` is the parsed `new Date(since).getTime()` value in ms; `none`
    models an absent (falsy) argument.  `slice(-10)` is `drop (len - 10)`;
    the queue is cleared only when `clearAfterRead && action === 'get-all'`. -/
def getMessagesOp (st : SocketStore) (socketId : String)
    (action : ReceiveAction) (since : Option Nat) (clearAfterRead : Bool) :
    List Message × SocketStore :=
  match getSocket st socketId with
  | none => ([], st)
  | some inst =>
    let messages :=
      match action with
      | ReceiveAction.getLatest =>
          inst.messageQueue.drop (inst.messageQueue.length - 10)
      | ReceiveAction.getAll => inst.messageQueue
      | ReceiveAction.getSince =>
          match since with
          | some t => inst.messageQueue.filter (fun m => decide (t < m.timestamp))
          | none => inst.messageQueue
    let st2 :=
      if clearAfterRead ∧ action = ReceiveAction.getAll then
        recUpd st socketId (fun i => { i with messageQueue := [] })
      else st
    (messages, st2)

/-- The result object of `receiveMessages`. -/
structure ReceiveResult where
  success : Bool
  error : Option String
  messages : List Message
  count : Nat
  queueSize : Nat
deriving DecidableEq

/-- `receiveMessages(params)` from src/src/utils/socket/receive.ts. -/
def receiveMessages (st : SocketStore) (socketId : String)
    (action : ReceiveAction) (since : Option Nat) (clearAfterRead : Bool) :
    ReceiveResult × SocketStore :=
  match getSocket st socketId with
  | none =>
      ({ success := false
         error := some ("Socket with ID " ++ socketId ++ " not found")
         messages := []
         count := 0
         queueSize := 0 }, st)
  | some _ =>
    if action = ReceiveAction.getSince ∧ since = none then
      ({ success := false
         error := some "The since parameter is required for get-since action"
         messages := []
         count := 0
         queueSize := 0 }, st)
    else
      let res := getMessagesOp st socketId action since clearAfterRead
      let queueSize :=
        match getSocket res.2 socketId with
        | some i => i.messageQueue.length
        | none => 0
      ({ success := true
         error := none
         messages := res.1
         count := res.1.length
         queueSize := if clearAfterRead ∧ action = ReceiveAction.getAll then 0 else queueSize },
       res.2)

/-! ## Closing a socket (src/src/utils/socket/close.ts) -/

/-- The `finalStats` object computed before removal. -/
structure SocketFinalStats where
  totalMessages : Nat
  sentMessages : Nat
  receivedMessages : Nat
  connectionDuration : Nat
deriving DecidableEq

/-- `socketInstance.messageQueue`-derived statistics plus the connection
    duration `Date.now() - createdAt`. -/
def socketFinalStats (inst : SocketInstance) (now : Nat) : SocketFinalStats :=
  { totalMessages := inst.messageQueue.length
    sentMessages :=
      (inst.messageQueue.filter (fun m => decide (m.type = MsgType.sent))).length
    receivedMessages :=
      (inst.messageQueue.filter (fun m => decide (m.type = MsgType.received))).length
    connectionDuration := now - inst.createdAt }

/-- The result object of `closeSocket`. -/
structure CloseSocketResult where
  success : Bool
  error : Option String
  message : Option String
  code : Option Nat
  reason : Option String
  finalStats : Option SocketFinalStats
deriving DecidableEq

/-- `closeSocket(params)`.  Environment parameters: `now` is the clock,
    `closeConfirmed` says whether a close event arrives before the 5 s
    timeout, `closeThrows` whether `socket.close()` / `terminate()` throws
    (with message `closeErrMsg`).  Branches follow the source: ready-state
    3 resolves immediately; 1 calls `close` (catching errors) then waits
    for the close event or the timeout; 0 terminates immediately; the
    remaining state (2, CLOSING) just waits for the event or timeout. -/
def closeSocket (st : SocketStore) (socketId : String) (code : Nat)
    (reason : String) (now : Nat) (closeConfirmed : Bool)
    (closeThrows : Bool) (closeErrMsg : String) :
    CloseSocketResult × SocketStore :=
  match getSocket st socketId with
  | none =>
      ({ success := false
         error := some ("Socket with ID " ++ socketId ++ " not found")
         message := none
         code := none
         reason := none
         finalStats := none }, st)
  | some inst =>
    let finalStats := socketFinalStats inst now
    let st1 := updateSocketStatus st socketId SocketStatus.closing now
    if inst.readyState = 3 then
      ({ success := true, error := none
         message := some "Socket was already closed"
         code := none
         reason := none
         finalStats := some finalStats }, removeSocket st1 socketId)
    else if inst.readyState = 1 then
      if closeThrows then
        ({ success := true, error := some closeErrMsg
           message := some "WebSocket closed with errors"
           code := none
           reason := none
           finalStats := some finalStats }, removeSocket st1 socketId)
      else if closeConfirmed then
        ({ success := true, error := none
           message := some "WebSocket closed successfully"
           code := some code
           reason := some reason
           finalStats := some finalStats }, removeSocket st1 socketId)
      else
        ({ success := true, error := none
           message := some "WebSocket forcefully terminated after timeout"
           code := none
           reason := none
           finalStats := some finalStats }, removeSocket st1 socketId)
    else if inst.readyState = 0 then
      if closeThrows then
        ({ success := true, error := some closeErrMsg
           message := some "WebSocket closed with errors"
           code := none
           reason := none
           finalStats := some finalStats }, removeSocket st1 socketId)
      else
        ({ success := true, error := none
           message := some "WebSocket terminated while connecting"
           code := none
           reason := none
           finalStats := some finalStats }, removeSocket st1 socketId)
    else
      if closeConfirmed then
        ({ success := true, error := none
           message := some "WebSocket closed successfully"
           code := some code
           reason := some reason
           finalStats := some finalStats }, removeSocket st1 socketId)
      else
        ({ success := true, error := none
           message := some "WebSocket forcefully terminated after timeout"
           code := none
           reason := none
           finalStats := some finalStats }, removeSocket st1 socketId)

/-! ## Connecting (src/src/utils/socket/connect.ts) -/

/-- JS `String.startsWith` on the underlying character lists: does the
    first list occur at the start of the second? -/
def listStarts : List Char → List Char → Bool
  | [], _ => true
  | _ :: _, [] => false
  | c :: cs, d :: ds => c == d && listStarts cs ds

/-- `s.startsWith(p)`. -/
def jsStartsWith (s p : String) : Bool := listStarts p.data s.data

/-- The URL scheme: the characters before the first `:` (used to state the
    spec-side property about schemes). -/
def urlScheme (url : String) : List Char :=
  url.data.takeWhile (fun c => decide (c ≠ ':'))

/-- How the pending connection resolves: the `open` event, the `error`
    event (with the error message), or neither within the 10 s timeout. -/
inductive ConnectOutcome where
  | openedEvt
  | erroredEvt (msg : String)
  | timedOut
deriving DecidableEq

/-- The result object of `connectSocket` (the `status` field is the
    literal string placed in the JSON response). -/
structure ConnectResult where
  success : Bool
  error : Option String
  socketId : Option String
  status : Option String
deriving DecidableEq

/-- The response string for a `SocketInstance.status` value. -/
def statusString : SocketStatus → String
  | SocketStatus.connecting => "connecting"
  | SocketStatus.opened => "open"
  | SocketStatus.closing => "closing"
  | SocketStatus.closed => "closed"

/-- `connectSocket(params)`.  `idWords` feeds `generateSocketId`; `now` is
    the clock at session creation; `outcome` is how the underlying
    connection resolves; `evtMsg`/`evtNow` are the synthetic message
    appended by the `open`/`error` handler and the clock at that point. -/
def connectSocket (st : SocketStore) (url : String) (protocols : List String)
    (autoReconnect : Bool) (maxReconnectAttempts reconnectInterval messageHistoryLimit : Nat)
    (idWords : String) (now : Nat) (outcome : ConnectOutcome)
    (evtMsg : Message) (evtNow : Nat) : ConnectResult × SocketStore :=
  if ¬ (jsStartsWith url "ws://" || jsStartsWith url "wss://") then
    ({ success := false
       error := some "Invalid WebSocket URL. Must start with ws:// or wss://"
       socketId := none
       status := none }, st)
  else
    let socketId := generateSocketId idWords
    let socketInstance : SocketInstance :=
      { id := socketId
        readyState := 0
        url := url
        createdAt := now
        status := SocketStatus.connecting
        messageQueue := []
        config :=
          { autoReconnect := autoReconnect
            maxReconnectAttempts := maxReconnectAttempts
            reconnectInterval := reconnectInterval
            messageHistoryLimit := messageHistoryLimit
            protocols := protocols }
        reconnectAttempts := 0
        lastActivity := now }
    let st1 := addSocket st socketInstance
    match outcome with
    | ConnectOutcome.openedEvt =>
        let st2 := updateSocketStatus st1 socketId SocketStatus.opened evtNow
        let st3 := addMessage st2 socketId evtMsg evtNow
        ({ success := true, error := none
           socketId := some socketId, status := some "open" }, st3)
    | ConnectOutcome.erroredEvt m =>
        let st2 := addMessage st1 socketId evtMsg evtNow
        ({ success := false, error := some m
           socketId := some socketId, status := some "error" }, st2)
    | ConnectOutcome.timedOut =>
        ({ success := false, error := some "Connection timeout"
           socketId := some socketId
           status := some (statusString socketInstance.status) }, st1)

/-! ## Browser / page registry (src/src/utils/browser-instances.ts,
    src/src/tools/browser.ts) -/

/-- The `BrowserInstance` interface; `connected` mirrors
    `browser.connected` on the puppeteer handle. -/
structure BrowserInstance where
  id : String
  connected : Bool
  createdAt : Nat
deriving DecidableEq

/-- The `PageInstance` interface. -/
structure PageInstance where
  id : String
  browserId : String
  createdAt : Nat
deriving DecidableEq

/-- `global.mcpBrowsers`. -/
abbrev BrowserMap := List (String × BrowserInstance)

/-- `global.mcpPages`. -/
abbrev PageMap := List (String × PageInstance)

/-- Registry lookup `getBrowsers()[id]`. -/
def lookupBrowser (bs : BrowserMap) (id : String) : Option BrowserInstance :=
  recGet bs id

/-- Registry lookup `getPages()[id]`. -/
def lookupPage (ps : PageMap) (id : String) : Option PageInstance :=
  recGet ps id

/-- The result object of `closeBrowser`. -/
structure CloseBrowserResult where
  success : Bool
  error : Option String
  cleanedPagesCount : Nat
deriving DecidableEq

/-- `closeBrowser(browserId)` from src/src/tools/browser.ts: not-found
    check, best-effort `browser.close()` whose failure is swallowed
    (`closeThrows` has no effect on the outcome), cascade deletion of
    every page with this `browserId` (counted), then removal of the
    registry entry. -/
def closeBrowser (bs : BrowserMap) (ps : PageMap) (browserId : String)
    (closeThrows : Bool) : CloseBrowserResult × BrowserMap × PageMap :=
  match recGet bs browserId with
  | none =>
      ({ success := false
         error := some ("Browser with ID " ++ browserId ++ " not found")
         cleanedPagesCount := 0 }, bs, ps)
  | some _ =>
    let cleaned := (ps.filter (fun p => p.2.browserId == browserId)).length
    let ps2 := ps.filter (fun p => !(p.2.browserId == browserId))
    let bs2 := recDel bs browserId
    ({ success := true, error := none, cleanedPagesCount := cleaned },
     bs2, ps2)

/-! ## Tool-handler identifier generation -/

/-- src/src/tools/browser.ts `launchBrowser`:
    `` `browser_${Date.now()}_${Math.random().toString(36).substr(2, 9)}` ``. -/
def launchBrowserId (now : Nat) (rand : String) : String :=
  "browser_" ++ (toString now ++ "_" ++ rand)

/-- src/src/tools/puppeteer-page.ts:
    `` `page_${Date.now()}_${Math.random().toString(36).substr(2, 9)}` ``. -/
def puppeteerPageId (now : Nat) (rand : String) : String :=
  "page_" ++ (toString now ++ "_" ++ rand)

/-- `generateBrowserId()` from the word-based variant of
    browser-instances.ts: `browser-` plus four random words. -/
def generateBrowserId (words : String) : String := "browser-" ++ words

/-- `generatePageId()` from the word-based variant of
    browser-instances.ts: `page-` plus four random words. -/
def generatePageId (words : String) : String := "page-" ++ words

/-! ## Reconnection controller (src/src/utils/socket/connect.ts, close
    handler lines and `reconnectSocketInstance`) -/

/-- The auto-reconnection block of the `close` handler: when
    `autoReconnect` is set and attempts remain, increment the counter and
    schedule a retry after `reconnectInterval * 2 ^ (attempts - 1)` ms
    (the returned delay; `none` when nothing is scheduled). -/
def handleCloseReconnect (inst : SocketInstance) :
    SocketInstance × Option Nat :=
  if inst.config.autoReconnect ∧
      inst.reconnectAttempts < inst.config.maxReconnectAttempts then
    ({ inst with reconnectAttempts := inst.reconnectAttempts + 1 },
     some (inst.config.reconnectInterval
        * 2 ^ (inst.reconnectAttempts + 1 - 1)))
  else (inst, none)

/-- The full `close` event handler: status to `closed`, append the
    synthetic disconnect message, then the auto-reconnection block. -/
def socketCloseEvent (inst : SocketInstance) (evtMsg : Message)
    (evtNow : Nat) : SocketInstance × Option Nat :=
  let inst1 := { inst with status := SocketStatus.closed, lastActivity := evtNow }
  let inst2 := applyAddMessage inst1 evtMsg evtNow
  handleCloseReconnect inst2

/-- The scheduled retry firing (`setTimeout` callback +
    `reconnectSocketInstance` entry): only if the session is still
    `closed`, swap in a fresh connecting socket. -/
def reconnectFire (inst : SocketInstance) (now : Nat) : SocketInstance :=
  if inst.status = SocketStatus.closed then
    { inst with readyState := 0, status := SocketStatus.connecting, lastActivity := now }
  else inst

/-- `n` consecutive failed connection cycles: each cycle is a
    peer-initiated `close` event; when a retry was scheduled, its timer
    fires and the replacement connection fails again, producing the next
    cycle's close event.  Returns the final session state and the list of
    scheduled backoff delays, in order. -/
def failedReconnectCycles (inst : SocketInstance) (evtMsg : Message) :
    Nat → SocketInstance × List Nat
  | 0 => (inst, [])
  | n + 1 =>
    let step := socketCloseEvent inst evtMsg evtMsg.timestamp
    match step.2 with
    | some delay =>
        let inst2 := reconnectFire step.1 evtMsg.timestamp
        let rest := failedReconnectCycles inst2 evtMsg n
        (rest.1, delay :: rest.2)
    | none =>
        let rest := failedReconnectCycles step.1 evtMsg n
        (rest.1, rest.2)

/-! ## Concrete fixtures used by witnesses and counterexamples -/

/-- A socket configuration with `messageHistoryLimit = 2`. -/
def demoConfig : SocketConfig :=
  { autoReconnect := false
    maxReconnectAttempts := 5
    reconnectInterval := 1000
    messageHistoryLimit := 2
    protocols := [] }

/-- A concrete received message with the given timestamp. -/
def demoMsg (i : Nat) : Message :=
  { id := "msg-able-baker-charlie"
    type := MsgType.received
    data := MsgData.text "hello"
    timestamp := i }

/-- An open session with an empty queue and history limit 2. -/
def demoInst : SocketInstance :=
  { id := "socket-a"
    readyState := 1
    url := "ws://example"
    createdAt := 0
    status := SocketStatus.opened
    messageQueue := []
    config := demoConfig
    reconnectAttempts := 0
    lastActivity := 0 }

/-- A store holding exactly `demoInst`. -/
def demoStore : SocketStore := [("socket-a", demoInst)]

/-- A concrete three-message queue with timestamps 1, 2, 3. -/
def demoQueue : List Message := [demoMsg 1, demoMsg 2, demoMsg 3]

/-- An open session holding `demoQueue` with history limit 100. -/
def filledInst : SocketInstance :=
  { demoInst with
      id := "socket-f"
      messageQueue := demoQueue
      config := { demoConfig with messageHistoryLimit := 100 } }

/-- A store holding exactly `filledInst`. -/
def filledStore : SocketStore := [("socket-f", filledInst)]

/-- A session configured with `autoReconnect = true` and
    `maxReconnectAttempts = 3`. -/
def reconnectInst : SocketInstance :=
  { demoInst with
      id := "socket-r"
      config :=
        { autoReconnect := true
          maxReconnectAttempts := 3
          reconnectInterval := 1000
          messageHistoryLimit := 100
          protocols := [] } }

/-- A connected concrete browser. -/
def demoBrowser : BrowserInstance :=
  { id := "browser_1_aaa", connected := true, createdAt := 0 }

/-- A registry holding exactly `demoBrowser`. -/
def demoBrowsers : BrowserMap := [("browser_1_aaa", demoBrowser)]

/-- A page belonging to `demoBrowser`. -/
def demoPage : PageInstance :=
  { id := "page_1_bbb", browserId := "browser_1_aaa", createdAt := 0 }

/-- A page belonging to some other browser. -/
def demoPage2 : PageInstance :=
  { id := "page_2_ccc", browserId := "browser_other", createdAt := 0 }

/-- A page registry holding `demoPage` and `demoPage2`. -/
def demoPages : PageMap :=
  [("page_1_bbb", demoPage), ("page_2_ccc", demoPage2)]

/-- A session whose `messageHistoryLimit` is 0 (falsy in JS). -/
def zeroLimitInst : SocketInstance :=
  { demoInst with id := "socket-z", config := { demoConfig with messageHistoryLimit := 0 } }

/-- A store holding exactly `zeroLimitInst`. -/
def zeroLimitStore : SocketStore := [("socket-z", zeroLimitInst)]

/-! ## Queue eviction lemmas (claim C1 groundwork) -/

theorem pushWithLimit_of_lt (L : Nat) (q : List Message) (m : Message)
    (hq : q.length < L) : pushWithLimit L q m = q ++ [m] := by
  unfold pushWithLimit
  rw [if_neg]
  rintro ⟨h0, hlt⟩
  simp only [List.length_append, List.length_cons, List.length_nil] at hlt
  omega

theorem pushWithLimit_of_full (L : Nat) (hL : 1 ≤ L) (q : List Message)
    (m : Message) (hq : q.length = L) :
    pushWithLimit L q m = (q ++ [m]).drop 1 := by
  unfold pushWithLimit
  rw [if_pos]
  · congr 1
    simp only [List.length_append, List.length_cons, List.length_nil, hq]
    omega
  · constructor
    · omega
    · simp only [List.length_append, List.length_cons, List.length_nil, hq]
      omega

theorem pushWithLimit_length_le (L : Nat) (hL : 1 ≤ L) (q : List Message)
    (m : Message) (hq : q.length ≤ L) :
    (pushWithLimit L q m).length ≤ L := by
  rcases Nat.lt_or_ge q.length L with hlt | hge
  · rw [pushWithLimit_of_lt L q m hlt]
    simp only [List.length_append, List.length_cons, List.length_nil]
    omega
  · have heq : q.length = L := le_antisymm hq hge
    rw [pushWithLimit_of_full L hL q m heq]
    simp only [List.length_drop, List.length_append, List.length_cons,
      List.length_nil, heq]
    omega

theorem foldl_pushWithLimit_drop (L : Nat) (hL : 1 ≤ L) (ms : List Message) :
    ms.foldl (pushWithLimit L) [] = ms.drop (ms.length - L) := by
  induction ms using List.reverseRecOn with
  | nil => simp
  | append_singleton ms m ih =>
    rw [List.foldl_append, List.foldl_cons, List.foldl_nil, ih]
    by_cases hlen : ms.length < L
    · have h0 : ms.length - L = 0 := by omega
      have h0' : ms.length + 1 - L = 0 := by omega
      rw [h0, List.drop_zero]
      rw [pushWithLimit_of_lt L ms m hlen]
      rw [List.length_append, List.length_cons, List.length_nil, h0',
        List.drop_zero]
    · push_neg at hlen
      have hdlen : (ms.drop (ms.length - L)).length = L := by
        simp only [List.length_drop]
        omega
      rw [pushWithLimit_of_full L hL _ m hdlen]
      have hstep : (ms.drop (ms.length - L) ++ [m]).drop 1
          = ms.drop (ms.length - L + 1) ++ [m] := by
        rw [List.drop_append_of_le_length (by omega : 1 ≤ (ms.drop (ms.length - L)).length)]
        rw [List.drop_drop]
      rw [hstep]
      have hfin : (ms ++ [m]).drop (ms.length + 1 - L)
          = ms.drop (ms.length - L + 1) ++ [m] := by
        have h1 : ms.length + 1 - L = ms.length - L + 1 := by omega
        rw [h1, List.drop_append_of_le_length (by omega : ms.length - L + 1 ≤ ms.length)]
      rw [List.length_append, List.length_cons, List.length_nil, hfin]

theorem getSocket_addMessage {st : SocketStore} {sid : String}
    {inst : SocketInstance} (m : Message) (now : Nat)
    (h : getSocket st sid = some inst) :
    getSocket (addMessage st sid m now) sid = some (applyAddMessage inst m now) := by
  unfold getSocket addMessage
  rw [recGet_recUpd_self]
  unfold getSocket at h
  rw [h]
  rfl

theorem getSocket_addMessages {st : SocketStore} {sid : String}
    {inst : SocketInstance} (ms : List (Message × Nat))
    (h : getSocket st sid = some inst) :
    getSocket (addMessages st sid ms) sid
      = some (ms.foldl (fun i pm => applyAddMessage i pm.1 pm.2) inst) := by
  induction ms generalizing st inst with
  | nil => simpa [addMessages] using h
  | cons pm rest ih =>
    have h1 := getSocket_addMessage pm.1 pm.2 h
    simpa [addMessages, List.foldl_cons] using ih h1

theorem foldl_applyAddMessage_queue (ms : List (Message × Nat))
    (inst : SocketInstance) :
    (ms.foldl (fun i pm => applyAddMessage i pm.1 pm.2) inst).messageQueue
      = (ms.map Prod.fst).foldl
          (pushWithLimit inst.config.messageHistoryLimit) inst.messageQueue
    ∧ (ms.foldl (fun i pm => applyAddMessage i pm.1 pm.2) inst).config
        = inst.config := by
  induction ms generalizing inst with
  | nil => exact ⟨rfl, rfl⟩
  | cons pm rest ih =>
    simp only [List.foldl_cons, List.map_cons]
    exact ih (applyAddMessage inst pm.1 pm.2)

/-! ## Claim theorems -/

/-- Claim C1 (amended to require a positive history limit): for a session
    with `messageHistoryLimit = N ≥ 1` and an empty queue, appending
    `N + k` messages via `addMessage` leaves a queue of exactly the last
    `N` appended messages, oldest first, of length exactly `N`; and each
    single append preserves the bound `queue.length ≤ N`. -/
theorem addMessage_history_limit (st : SocketStore) (sid : String)
    (inst : SocketInstance) (N k : Nat) (ms : List (Message × Nat))
    (h1 : getSocket st sid = some inst)
    (h2 : inst.config.messageHistoryLimit = N)
    (h3 : 1 ≤ N)
    (h4 : inst.messageQueue = [])
    (h5 : ms.length = N + k) :
    (∃ inst', getSocket (addMessages st sid ms) sid = some inst' ∧
      inst'.messageQueue = (ms.map Prod.fst).drop k ∧
      inst'.messageQueue.length = N) ∧
    (∀ (q : List Message) (m : Message), q.length ≤ N →
      (pushWithLimit N q m).length ≤ N) := by
  constructor
  · refine ⟨_, getSocket_addMessages ms h1, ?_, ?_⟩
    · have hq := (foldl_applyAddMessage_queue ms inst).1
      rw [hq, h2, h4, foldl_pushWithLimit_drop N h3]
      congr 1
      simp [List.length_map, h5]
    · have hq := (foldl_applyAddMessage_queue ms inst).1
      rw [hq, h2, h4, foldl_pushWithLimit_drop N h3]
      simp only [List.length_drop, List.length_map, h5]
      omega
  · intro q m hqle
    exact pushWithLimit_length_le N h3 q m hqle

/-- Witness for the amended claim C1 at a concrete input: a session with
    limit 2, three appended messages, queue ends as the last two. -/
theorem addMessage_history_limit_witness :
    (∃ inst', getSocket (addMessages demoStore "socket-a"
        [(demoMsg 1, 1), (demoMsg 2, 2), (demoMsg 3, 3)]) "socket-a" = some inst' ∧
      inst'.messageQueue
        = ([(demoMsg 1, 1), (demoMsg 2, 2), (demoMsg 3, 3)].map Prod.fst).drop 1 ∧
      inst'.messageQueue.length = 2) ∧
    (∀ (q : List Message) (m : Message), q.length ≤ 2 →
      (pushWithLimit 2 q m).length ≤ 2) :=
  addMessage_history_limit demoStore "socket-a" demoInst 2 1
    [(demoMsg 1, 1), (demoMsg 2, 2), (demoMsg 3, 3)]
    rfl rfl (by decide) rfl rfl

/-- Counterexample to claim C1 as stated: with `messageHistoryLimit = 0`
    (a legal numeric configuration, falsy in JS) the eviction guard is
    skipped, so after appending 0 + 1 messages the queue has length 1,
    not 0, violating both the exact-length claim and the invariant
    `messageQueue.length ≤ messageHistoryLimit`. -/
theorem addMessage_history_limit_counterexample :
    (getSocket (addMessages zeroLimitStore "socket-z" [(demoMsg 1, 1)]) "socket-z").map
        (fun i => i.messageQueue.length) = some 1 ∧
    ¬ ((getSocket (addMessages zeroLimitStore "socket-z" [(demoMsg 1, 1)]) "socket-z").map
        (fun i => i.messageQueue.length) = some 0) := by
  constructor
  · rfl
  · intro h
    rw [show (getSocket (addMessages zeroLimitStore "socket-z"
        [(demoMsg 1, 1)]) "socket-z").map (fun i => i.messageQueue.length)
        = some 1 from rfl] at h
    exact absurd (Option.some.inj h) (by decide)

/-- Claim C6: `receive` returns, for get-latest the most recent 10 queue
    entries, for get-all the full queue (clearing it afterwards iff
    `clearAfterRead`), for get-since exactly the entries with
    `timestamp > T` in original order; and fails with the missing-parameter
    error when the mode is get-since and `since` is absent. -/
theorem receiveMessages_modes (st : SocketStore) (sid : String)
    (inst : SocketInstance) (since : Option Nat) (T : Nat) (clear : Bool)
    (h : getSocket st sid = some inst) :
    ((receiveMessages st sid ReceiveAction.getLatest since clear).1.success = true ∧
     (receiveMessages st sid ReceiveAction.getLatest since clear).1.messages
       = inst.messageQueue.drop (inst.messageQueue.length - 10)) ∧
    ((receiveMessages st sid ReceiveAction.getAll since clear).1.success = true ∧
     (receiveMessages st sid ReceiveAction.getAll since clear).1.messages
       = inst.messageQueue ∧
     (clear = true →
       getSocket (receiveMessages st sid ReceiveAction.getAll since clear).2 sid
         = some { inst with messageQueue := [] }) ∧
     (clear = false →
       (receiveMessages st sid ReceiveAction.getAll since clear).2 = st)) ∧
    ((receiveMessages st sid ReceiveAction.getSince (some T) clear).1.success = true ∧
     (receiveMessages st sid ReceiveAction.getSince (some T) clear).1.messages
       = inst.messageQueue.filter (fun m => decide (T < m.timestamp))) ∧
    ((receiveMessages st sid ReceiveAction.getSince none clear).1.success = false ∧
     (receiveMessages st sid ReceiveAction.getSince none clear).1.error
       = some "The since parameter is required for get-since action") := by
  refine ⟨⟨?_, ?_⟩, ⟨?_, ?_, ?_, ?_⟩, ⟨?_, ?_⟩, ⟨?_, ?_⟩⟩
  · simp [receiveMessages, getMessagesOp, h]
  · simp [receiveMessages, getMessagesOp, h]
  · simp [receiveMessages, getMessagesOp, h]
  · simp [receiveMessages, getMessagesOp, h]
  · intro hc
    subst hc
    have h' : recGet st sid = some inst := h
    simp [receiveMessages, getMessagesOp, getSocket, recGet_recUpd_self, h']
  · intro hc
    subst hc
    simp [receiveMessages, getMessagesOp, h]
  · simp [receiveMessages, getMessagesOp, h]
  · simp [receiveMessages, getMessagesOp, h]
  · simp [receiveMessages, getMessagesOp, h]
  · simp [receiveMessages, getMessagesOp, h]

/-- Witness for claim C6 at a concrete session with three queued messages
    and `clearAfterRead = true`. -/
theorem receiveMessages_modes_witness :
    ((receiveMessages filledStore "socket-f" ReceiveAction.getLatest (some 1) true).1.success = true ∧
     (receiveMessages filledStore "socket-f" ReceiveAction.getLatest (some 1) true).1.messages
       = filledInst.messageQueue.drop (filledInst.messageQueue.length - 10)) ∧
    ((receiveMessages filledStore "socket-f" ReceiveAction.getAll (some 1) true).1.success = true ∧
     (receiveMessages filledStore "socket-f" ReceiveAction.getAll (some 1) true).1.messages
       = filledInst.messageQueue ∧
     (true = true →
       getSocket (receiveMessages filledStore "socket-f" ReceiveAction.getAll (some 1) true).2 "socket-f"
         = some { filledInst with messageQueue := [] }) ∧
     (true = false →
       (receiveMessages filledStore "socket-f" ReceiveAction.getAll (some 1) true).2 = filledStore)) ∧
    ((receiveMessages filledStore "socket-f" ReceiveAction.getSince (some 1) true).1.success = true ∧
     (receiveMessages filledStore "socket-f" ReceiveAction.getSince (some 1) true).1.messages
       = filledInst.messageQueue.filter (fun m => decide (1 < m.timestamp))) ∧
    ((receiveMessages filledStore "socket-f" ReceiveAction.getSince none true).1.success = false ∧
     (receiveMessages filledStore "socket-f" ReceiveAction.getSince none true).1.error
       = some "The since parameter is required for get-since action") :=
  receiveMessages_modes filledStore "socket-f" filledInst (some 1) 1 true rfl

/-- Claim C10: `receive` with get-latest or get-since never mutates the
    store (even with `clearAfterRead = true`); only get-all with
    `clearAfterRead = true` clears the queue. -/
theorem receive_frame_effect (st : SocketStore) (sid : String)
    (since : Option Nat) (clear : Bool) :
    (receiveMessages st sid ReceiveAction.getLatest since clear).2 = st ∧
    (receiveMessages st sid ReceiveAction.getSince since clear).2 = st ∧
    (∀ inst, getSocket st sid = some inst →
      getSocket (receiveMessages st sid ReceiveAction.getAll since true).2 sid
        = some { inst with messageQueue := [] }) ∧
    (receiveMessages st sid ReceiveAction.getAll since false).2 = st := by
  refine ⟨?_, ?_, ?_, ?_⟩
  · cases hs : getSocket st sid <;> simp [receiveMessages, getMessagesOp, hs]
  · cases hs : getSocket st sid with
    | none => simp [receiveMessages, getMessagesOp, hs]
    | some inst =>
      cases since with
      | none => simp [receiveMessages, getMessagesOp, hs]
      | some t => simp [receiveMessages, getMessagesOp, hs]
  · intro inst hs
    have hs' : recGet st sid = some inst := hs
    simp [receiveMessages, getMessagesOp, getSocket, recGet_recUpd_self, hs']
  · cases hs : getSocket st sid <;> simp [receiveMessages, getMessagesOp, hs]

/-- Witness for claim C10 at a concrete filled session. -/
theorem receive_frame_effect_witness :
    (receiveMessages filledStore "socket-f" ReceiveAction.getLatest (some 1) true).2 = filledStore ∧
    (receiveMessages filledStore "socket-f" ReceiveAction.getSince (some 1) true).2 = filledStore ∧
    (∀ inst, getSocket filledStore "socket-f" = some inst →
      getSocket (receiveMessages filledStore "socket-f" ReceiveAction.getAll (some 1) true).2 "socket-f"
        = some { inst with messageQueue := [] }) ∧
    (receiveMessages filledStore "socket-f" ReceiveAction.getAll (some 1) false).2 = filledStore :=
  receive_frame_effect filledStore "socket-f" (some 1) true

/-- Claim C4: `sendMessage` fails without touching the store when the
    session is absent, not `open`, or the underlying ready-state is not
    OPEN; and a `sent` message is appended to the queue if and only if the
    underlying send callback reports success. -/
theorem sendMessage_queue_discipline (st : SocketStore) (sid : String)
    (message : String) (binary : Bool) (msgWords : String) (now : Nat)
    (sendError : Option String) :
    (getSocket st sid = none →
      (sendMessage st sid message binary msgWords now sendError).1.success = false ∧
      (sendMessage st sid message binary msgWords now sendError).2 = st) ∧
    (∀ inst, getSocket st sid = some inst → inst.status ≠ SocketStatus.opened →
      (sendMessage st sid message binary msgWords now sendError).1.success = false ∧
      (sendMessage st sid message binary msgWords now sendError).2 = st) ∧
    (∀ inst, getSocket st sid = some inst → inst.status = SocketStatus.opened →
      inst.readyState ≠ 1 →
      (sendMessage st sid message binary msgWords now sendError).1.success = false ∧
      (sendMessage st sid message binary msgWords now sendError).2 = st) ∧
    (∀ inst e, getSocket st sid = some inst → inst.status = SocketStatus.opened →
      inst.readyState = 1 → sendError = some e →
      (sendMessage st sid message binary msgWords now sendError).1.success = false ∧
      (sendMessage st sid message binary msgWords now sendError).2 = st) ∧
    (∀ inst, getSocket st sid = some inst → inst.status = SocketStatus.opened →
      inst.readyState = 1 → sendError = none →
      (sendMessage st sid message binary msgWords now sendError).1.success = true ∧
      getSocket (sendMessage st sid message binary msgWords now sendError).2 sid
        = some (applyAddMessage inst
            { id := generateMessageId msgWords
              type := MsgType.sent
              data := if binary then MsgData.binary message else MsgData.text message
              timestamp := now } now)) := by
  refine ⟨?_, ?_, ?_, ?_, ?_⟩
  · intro h
    simp [sendMessage, h]
  · intro inst h hstat
    simp [sendMessage, h, hstat]
  · intro inst h hstat hready
    simp [sendMessage, h, hstat, hready]
  · intro inst e h hstat hready herr
    simp [sendMessage, h, hstat, hready, herr]
  · intro inst h hstat hready herr
    subst herr
    constructor
    · simp [sendMessage, h, hstat, hready]
    · have hmain : (sendMessage st sid message binary msgWords now none).2
          = addMessage st sid
              { id := generateMessageId msgWords
                type := MsgType.sent
                data := if binary then MsgData.binary message else MsgData.text message
                timestamp := now } now := by
        simp [sendMessage, h, hstat, hready]
      rw [hmain]
      exact getSocket_addMessage _ now h

/-- Witness for claim C4: a concrete open session with ready-state 1 and a
    successful underlying send. -/
theorem sendMessage_queue_discipline_witness :
    (getSocket demoStore "socket-a" = none →
      (sendMessage demoStore "socket-a" "hi" false "w-x-y" 7 none).1.success = false ∧
      (sendMessage demoStore "socket-a" "hi" false "w-x-y" 7 none).2 = demoStore) ∧
    (∀ inst, getSocket demoStore "socket-a" = some inst → inst.status ≠ SocketStatus.opened →
      (sendMessage demoStore "socket-a" "hi" false "w-x-y" 7 none).1.success = false ∧
      (sendMessage demoStore "socket-a" "hi" false "w-x-y" 7 none).2 = demoStore) ∧
    (∀ inst, getSocket demoStore "socket-a" = some inst → inst.status = SocketStatus.opened →
      inst.readyState ≠ 1 →
      (sendMessage demoStore "socket-a" "hi" false "w-x-y" 7 none).1.success = false ∧
      (sendMessage demoStore "socket-a" "hi" false "w-x-y" 7 none).2 = demoStore) ∧
    (∀ inst e, getSocket demoStore "socket-a" = some inst → inst.status = SocketStatus.opened →
      inst.readyState = 1 → (none : Option String) = some e →
      (sendMessage demoStore "socket-a" "hi" false "w-x-y" 7 none).1.success = false ∧
      (sendMessage demoStore "socket-a" "hi" false "w-x-y" 7 none).2 = demoStore) ∧
    (∀ inst, getSocket demoStore "socket-a" = some inst → inst.status = SocketStatus.opened →
      inst.readyState = 1 → (none : Option String) = none →
      (sendMessage demoStore "socket-a" "hi" false "w-x-y" 7 none).1.success = true ∧
      getSocket (sendMessage demoStore "socket-a" "hi" false "w-x-y" 7 none).2 "socket-a"
        = some (applyAddMessage inst
            { id := generateMessageId "w-x-y"
              type := MsgType.sent
              data := if false then MsgData.binary "hi" else MsgData.text "hi"
              timestamp := 7 } 7)) :=
  sendMessage_queue_discipline demoStore "socket-a" "hi" false "w-x-y" 7 none

theorem listStarts_exists {p s : List Char} (h : listStarts p s = true) :
    ∃ t, s = p ++ t := by
  induction p generalizing s with
  | nil => exact ⟨s, rfl⟩
  | cons c cs ih =>
    cases s with
    | nil => simp [listStarts] at h
    | cons d ds =>
      simp only [listStarts, Bool.and_eq_true, beq_iff_eq] at h
      obtain ⟨t, ht⟩ := ih h.2
      exact ⟨t, by simp [h.1, ht]⟩

theorem urlScheme_of_ws {url : String} (h : jsStartsWith url "ws://" = true) :
    urlScheme url = "ws".data := by
  obtain ⟨t, ht⟩ := listStarts_exists h
  unfold urlScheme
  rw [ht]
  show (('w' :: 's' :: ':' :: '/' :: '/' :: []) ++ t).takeWhile
      (fun c => decide (c ≠ ':')) = _
  rw [List.cons_append, List.cons_append, List.cons_append]
  rw [List.takeWhile_cons_of_pos (by decide), List.takeWhile_cons_of_pos (by decide),
    List.takeWhile_cons_of_neg (by decide)]

theorem urlScheme_of_wss {url : String} (h : jsStartsWith url "wss://" = true) :
    urlScheme url = "wss".data := by
  obtain ⟨t, ht⟩ := listStarts_exists h
  unfold urlScheme
  rw [ht]
  show (('w' :: 's' :: 's' :: ':' :: '/' :: '/' :: []) ++ t).takeWhile
      (fun c => decide (c ≠ ':')) = _
  rw [List.cons_append, List.cons_append, List.cons_append, List.cons_append]
  rw [List.takeWhile_cons_of_pos (by decide), List.takeWhile_cons_of_pos (by decide),
    List.takeWhile_cons_of_pos (by decide), List.takeWhile_cons_of_neg (by decide)]

/-- Claim C5: for a session present in the store, `closeSocket` resolves
    with success on every path (already closed, graceful close, forced
    termination after timeout, termination while connecting, close-call
    error), removes the session from the store, and reports statistics
    computed from the pre-removal state; on an absent id it fails with the
    not-found error and leaves the store unchanged. -/
theorem closeSocket_always_removes (st : SocketStore) (sid : String)
    (code : Nat) (reason : String) (now : Nat)
    (closeConfirmed closeThrows : Bool) (closeErrMsg : String) :
    (∀ inst, getSocket st sid = some inst →
      (closeSocket st sid code reason now closeConfirmed closeThrows closeErrMsg).1.success = true ∧
      (closeSocket st sid code reason now closeConfirmed closeThrows closeErrMsg).1.finalStats
        = some (socketFinalStats inst now) ∧
      getSocket (closeSocket st sid code reason now closeConfirmed closeThrows closeErrMsg).2 sid
        = none ∧
      (closeSocket st sid code reason now closeConfirmed closeThrows closeErrMsg).2
        = removeSocket (updateSocketStatus st sid SocketStatus.closing now) sid) ∧
    (getSocket st sid = none →
      (closeSocket st sid code reason now closeConfirmed closeThrows closeErrMsg).1.success = false ∧
      (closeSocket st sid code reason now closeConfirmed closeThrows closeErrMsg).1.error
        = some ("Socket with ID " ++ sid ++ " not found") ∧
      (closeSocket st sid code reason now closeConfirmed closeThrows closeErrMsg).2 = st) := by
  constructor
  · intro inst h
    have hstore : (closeSocket st sid code reason now closeConfirmed closeThrows closeErrMsg).2
        = removeSocket (updateSocketStatus st sid SocketStatus.closing now) sid := by
      simp only [closeSocket, h]
      split_ifs <;> rfl
    refine ⟨?_, ?_, ?_, hstore⟩
    · simp only [closeSocket, h]
      split_ifs <;> rfl
    · simp only [closeSocket, h]
      split_ifs <;> rfl
    · rw [hstore]
      exact recGet_recDel_self _ _
  · intro h
    refine ⟨?_, ?_, ?_⟩ <;> simp [closeSocket, h]

/-- Witness for claim C5 at a concrete open session (ready-state 1,
    graceful close confirmation). -/
theorem closeSocket_always_removes_witness :
    (∀ inst, getSocket filledStore "socket-f" = some inst →
      (closeSocket filledStore "socket-f" 1000 "Normal closure" 9 true false "e").1.success = true ∧
      (closeSocket filledStore "socket-f" 1000 "Normal closure" 9 true false "e").1.finalStats
        = some (socketFinalStats inst 9) ∧
      getSocket (closeSocket filledStore "socket-f" 1000 "Normal closure" 9 true false "e").2 "socket-f"
        = none ∧
      (closeSocket filledStore "socket-f" 1000 "Normal closure" 9 true false "e").2
        = removeSocket (updateSocketStatus filledStore "socket-f" SocketStatus.closing 9) "socket-f") ∧
    (getSocket filledStore "socket-f" = none →
      (closeSocket filledStore "socket-f" 1000 "Normal closure" 9 true false "e").1.success = false ∧
      (closeSocket filledStore "socket-f" 1000 "Normal closure" 9 true false "e").1.error
        = some ("Socket with ID " ++ "socket-f" ++ " not found") ∧
      (closeSocket filledStore "socket-f" 1000 "Normal closure" 9 true false "e").2 = filledStore) :=
  closeSocket_always_removes filledStore "socket-f" 1000 "Normal closure" 9 true false "e"

/-- Claim C7: `connect` on a url whose scheme is neither `ws` nor `wss`
    fails with the invalid-URL error, creates no session, and leaves the
    store (hence the `listSockets` count) unchanged. -/
theorem connect_rejects_bad_scheme (st : SocketStore) (url : String)
    (protocols : List String) (autoReconnect : Bool)
    (maxR interval histLimit : Nat) (idWords : String) (now : Nat)
    (outcome : ConnectOutcome) (evtMsg : Message) (evtNow : Nat)
    (h1 : urlScheme url ≠ "ws".data) (h2 : urlScheme url ≠ "wss".data) :
    (connectSocket st url protocols autoReconnect maxR interval histLimit
        idWords now outcome evtMsg evtNow).1.success = false ∧
    (connectSocket st url protocols autoReconnect maxR interval histLimit
        idWords now outcome evtMsg evtNow).1.error
      = some "Invalid WebSocket URL. Must start with ws:// or wss://" ∧
    (connectSocket st url protocols autoReconnect maxR interval histLimit
        idWords now outcome evtMsg evtNow).2 = st ∧
    (connectSocket st url protocols autoReconnect maxR interval histLimit
        idWords now outcome evtMsg evtNow).2.length = st.length := by
  have hws : jsStartsWith url "ws://" = false := by
    cases hx : jsStartsWith url "ws://" with
    | false => rfl
    | true => exact absurd (urlScheme_of_ws hx) h1
  have hwss : jsStartsWith url "wss://" = false := by
    cases hx : jsStartsWith url "wss://" with
    | false => rfl
    | true => exact absurd (urlScheme_of_wss hx) h2
  refine ⟨?_, ?_, ?_, ?_⟩ <;> simp [connectSocket, hws, hwss]

/-- Witness for claim C7 at the concrete url `http://x`. -/
theorem connect_rejects_bad_scheme_witness :
    (connectSocket demoStore "http://x" [] false 5 1000 100
        "a-b-c-d" 0 ConnectOutcome.timedOut (demoMsg 1) 1).1.success = false ∧
    (connectSocket demoStore "http://x" [] false 5 1000 100
        "a-b-c-d" 0 ConnectOutcome.timedOut (demoMsg 1) 1).1.error
      = some "Invalid WebSocket URL. Must start with ws:// or wss://" ∧
    (connectSocket demoStore "http://x" [] false 5 1000 100
        "a-b-c-d" 0 ConnectOutcome.timedOut (demoMsg 1) 1).2 = demoStore ∧
    (connectSocket demoStore "http://x" [] false 5 1000 100
        "a-b-c-d" 0 ConnectOutcome.timedOut (demoMsg 1) 1).2.length = demoStore.length :=
  connect_rejects_bad_scheme demoStore "http://x" [] false 5 1000 100
    "a-b-c-d" 0 ConnectOutcome.timedOut (demoMsg 1) 1 (by decide) (by decide)

/-- Claim C8: when the underlying connection reports neither open nor
    error within the 10 s window, `connect` resolves with the timeout
    error (`success = false`) but the freshly allocated session stays in
    the store in `connecting` status — no rollback. -/
theorem connect_timeout_keeps_session (st : SocketStore) (url : String)
    (protocols : List String) (autoReconnect : Bool)
    (maxR interval histLimit : Nat) (idWords : String) (now : Nat)
    (evtMsg : Message) (evtNow : Nat)
    (hvalid : (jsStartsWith url "ws://" || jsStartsWith url "wss://") = true) :
    (connectSocket st url protocols autoReconnect maxR interval histLimit
        idWords now ConnectOutcome.timedOut evtMsg evtNow).1.success = false ∧
    (connectSocket st url protocols autoReconnect maxR interval histLimit
        idWords now ConnectOutcome.timedOut evtMsg evtNow).1.error
      = some "Connection timeout" ∧
    (∃ inst,
      (connectSocket st url protocols autoReconnect maxR interval histLimit
          idWords now ConnectOutcome.timedOut evtMsg evtNow).2 = addSocket st inst ∧
      getSocket (connectSocket st url protocols autoReconnect maxR interval histLimit
          idWords now ConnectOutcome.timedOut evtMsg evtNow).2 inst.id = some inst ∧
      inst.id = generateSocketId idWords ∧
      inst.status = SocketStatus.connecting) := by
  have hneg : ¬ (jsStartsWith url "ws://" || jsStartsWith url "wss://") = false := by
    simp [hvalid]
  refine ⟨?_, ?_, ?_⟩
  · simp [connectSocket, hvalid]
  · simp [connectSocket, hvalid]
  · refine ⟨{ id := generateSocketId idWords
              readyState := 0
              url := url
              createdAt := now
              status := SocketStatus.connecting
              messageQueue := []
              config :=
                { autoReconnect := autoReconnect
                  maxReconnectAttempts := maxR
                  reconnectInterval := interval
                  messageHistoryLimit := histLimit
                  protocols := protocols }
              reconnectAttempts := 0
              lastActivity := now }, ?_, ?_, rfl, rfl⟩
    · simp [connectSocket, hvalid]
    · simp only [connectSocket, hvalid, Bool.not_true, Bool.false_eq_true,
        if_false, ite_false]
      exact recGet_recSet_self st _ _

/-- Witness for claim C8 at the concrete url `ws://x`. -/
theorem connect_timeout_keeps_session_witness :
    (connectSocket demoStore "ws://x" [] false 5 1000 100
        "a-b-c-d" 0 ConnectOutcome.timedOut (demoMsg 1) 1).1.success = false ∧
    (connectSocket demoStore "ws://x" [] false 5 1000 100
        "a-b-c-d" 0 ConnectOutcome.timedOut (demoMsg 1) 1).1.error
      = some "Connection timeout" ∧
    (∃ inst,
      (connectSocket demoStore "ws://x" [] false 5 1000 100
          "a-b-c-d" 0 ConnectOutcome.timedOut (demoMsg 1) 1).2 = addSocket demoStore inst ∧
      getSocket (connectSocket demoStore "ws://x" [] false 5 1000 100
          "a-b-c-d" 0 ConnectOutcome.timedOut (demoMsg 1) 1).2 inst.id = some inst ∧
      inst.id = generateSocketId "a-b-c-d" ∧
      inst.status = SocketStatus.connecting) :=
  connect_timeout_keeps_session demoStore "ws://x" [] false 5 1000 100
    "a-b-c-d" 0 (demoMsg 1) 1 (by decide)

theorem keys_nodup_mem_eq {α : Type} {l : List (String × α)}
    (h : (l.map Prod.fst).Nodup) {k : String} {a b : α}
    (ha : (k, a) ∈ l) (hb : (k, b) ∈ l) : a = b := by
  induction l with
  | nil => simp at ha
  | cons p rest ih =>
    obtain ⟨pk, pv⟩ := p
    simp only [List.map_cons, List.nodup_cons] at h
    rcases List.mem_cons.mp ha with ha1 | ha1 <;>
      rcases List.mem_cons.mp hb with hb1 | hb1
    · obtain ⟨hk1, hv1⟩ := Prod.mk.injEq .. ▸ ha1
      obtain ⟨hk2, hv2⟩ := Prod.mk.injEq .. ▸ hb1
      rw [hv1, hv2]
    · exfalso
      obtain ⟨hk1, _⟩ := Prod.mk.injEq .. ▸ ha1
      exact h.1 (hk1 ▸ List.mem_map.mpr ⟨(k, b), hb1, rfl⟩)
    · exfalso
      obtain ⟨hk2, _⟩ := Prod.mk.injEq .. ▸ hb1
      exact h.1 (hk2 ▸ List.mem_map.mpr ⟨(k, a), ha1, rfl⟩)
    · exact ih h.2 ha1 hb1

theorem recGet_eq_none_of_no_key {α : Type} (st : List (String × α))
    (k : String) (h : ∀ q ∈ st, ¬ q.1 = k) : recGet st k = none := by
  unfold recGet
  have : st.find? (fun p => p.1 == k) = none := by
    rw [List.find?_eq_none]
    intro q hq
    simpa using h q hq
  rw [this]
  rfl

/-- Claim C2: `closeBrowser` on a present browser succeeds (also when
    terminating the handle fails), removes its registry entry, deletes
    every page with that `browserId` (so both subsequent lookups yield
    none), and returns the count of pages cleaned; on an absent id it
    fails with the not-found error leaving both registries unchanged. -/
theorem closeBrowser_cascade (bs : BrowserMap) (ps : PageMap)
    (bid : String) (closeThrows : Bool)
    (hnodup : (ps.map Prod.fst).Nodup) :
    (∀ b, lookupBrowser bs bid = some b →
      (closeBrowser bs ps bid closeThrows).1.success = true ∧
      (closeBrowser bs ps bid closeThrows).1.cleanedPagesCount
        = (ps.filter (fun p => p.2.browserId == bid)).length ∧
      lookupBrowser (closeBrowser bs ps bid closeThrows).2.1 bid = none ∧
      (∀ pid pinst, (pid, pinst) ∈ ps → pinst.browserId = bid →
        lookupPage (closeBrowser bs ps bid closeThrows).2.2 pid = none)) ∧
    (lookupBrowser bs bid = none →
      (closeBrowser bs ps bid closeThrows).1.success = false ∧
      (closeBrowser bs ps bid closeThrows).1.error
        = some ("Browser with ID " ++ bid ++ " not found") ∧
      (closeBrowser bs ps bid closeThrows).2.1 = bs ∧
      (closeBrowser bs ps bid closeThrows).2.2 = ps) := by
  constructor
  · intro b hb
    have hb' : recGet bs bid = some b := hb
    refine ⟨?_, ?_, ?_, ?_⟩
    · simp [closeBrowser, hb']
    · simp [closeBrowser, hb']
    · have hst : (closeBrowser bs ps bid closeThrows).2.1 = recDel bs bid := by
        simp [closeBrowser, hb']
      rw [lookupBrowser, hst]
      exact recGet_recDel_self bs bid
    · intro pid pinst hmem hbid
      have hst : (closeBrowser bs ps bid closeThrows).2.2
          = ps.filter (fun p => !(p.2.browserId == bid)) := by
        simp [closeBrowser, hb']
      rw [lookupPage, hst]
      apply recGet_eq_none_of_no_key
      intro q hq hqk
      have hqmem := List.mem_filter.mp hq
      have hqeq : q.2 = pinst := by
        apply keys_nodup_mem_eq hnodup _ hmem
        have : q = (pid, q.2) := by
          rw [← hqk]
        rw [← this]
        exact hqmem.1
      have : (q.2.browserId == bid) = true := by
        rw [hqeq, hbid]
        simp
      simp [this] at hqmem
  · intro hb
    have hb' : recGet bs bid = none := hb
    refine ⟨?_, ?_, ?_, ?_⟩ <;> simp [closeBrowser, hb']

/-- Witness for claim C2: one browser owning one of two pages. -/
theorem closeBrowser_cascade_witness :
    (∀ b, lookupBrowser demoBrowsers "browser_1_aaa" = some b →
      (closeBrowser demoBrowsers demoPages "browser_1_aaa" false).1.success = true ∧
      (closeBrowser demoBrowsers demoPages "browser_1_aaa" false).1.cleanedPagesCount
        = (demoPages.filter (fun p => p.2.browserId == "browser_1_aaa")).length ∧
      lookupBrowser (closeBrowser demoBrowsers demoPages "browser_1_aaa" false).2.1
        "browser_1_aaa" = none ∧
      (∀ pid pinst, (pid, pinst) ∈ demoPages → pinst.browserId = "browser_1_aaa" →
        lookupPage (closeBrowser demoBrowsers demoPages "browser_1_aaa" false).2.2 pid
          = none)) ∧
    (lookupBrowser demoBrowsers "browser_1_aaa" = none →
      (closeBrowser demoBrowsers demoPages "browser_1_aaa" false).1.success = false ∧
      (closeBrowser demoBrowsers demoPages "browser_1_aaa" false).1.error
        = some ("Browser with ID " ++ "browser_1_aaa" ++ " not found") ∧
      (closeBrowser demoBrowsers demoPages "browser_1_aaa" false).2.1 = demoBrowsers ∧
      (closeBrowser demoBrowsers demoPages "browser_1_aaa" false).2.2 = demoPages) :=
  closeBrowser_cascade demoBrowsers demoPages "browser_1_aaa" false (by decide)

theorem listStarts_append (p t : List Char) : listStarts p (p ++ t) = true := by
  induction p with
  | nil => rfl
  | cons c cs ih => simp [listStarts, ih]

theorem jsStartsWith_append (p t : String) : jsStartsWith (p ++ t) p = true := by
  obtain ⟨pd⟩ := p
  obtain ⟨td⟩ := t
  show listStarts pd (pd ++ td) = true
  exact listStarts_append pd td

/-- Counterexample to claim C9 as stated: `launchBrowser` (the cited
    createBrowser handler) generates `browser_<ts>_<rand>` with an
    underscore, which does not match `browser-*`; and message ids are
    prefixed `msg-`, not `message-`. -/
theorem id_prefixes_counterexample :
    jsStartsWith (launchBrowserId 0 "abc") "browser-" = false ∧
    launchBrowserId 0 "abc" = "browser_0_abc" ∧
    jsStartsWith (generateMessageId "a-b-c") "message-" = false ∧
    generateMessageId "a-b-c" = "msg-a-b-c" := by
  refine ⟨?_, ?_, ?_, ?_⟩ <;> decide

/-- Claim C9 (amended): socket ids match `socket-*`; message ids are
    prefixed `msg-`; the browser and page ids generated by the cited tool
    handlers use an underscore separator (`browser_*`, `page_*`), while
    the word-based helpers `generateBrowserId` / `generatePageId` produce
    `browser-*` / `page-*`. -/
theorem id_prefixes (now : Nat) (rand words : String) :
    jsStartsWith (generateSocketId words) "socket-" = true ∧
    jsStartsWith (generateMessageId words) "msg-" = true ∧
    jsStartsWith (launchBrowserId now rand) "browser_" = true ∧
    jsStartsWith (puppeteerPageId now rand) "page_" = true ∧
    jsStartsWith (generateBrowserId words) "browser-" = true ∧
    jsStartsWith (generatePageId words) "page-" = true := by
  refine ⟨?_, ?_, ?_, ?_, ?_, ?_⟩ <;> apply jsStartsWith_append

theorem socketCloseEvent_none (inst : SocketInstance) (evtMsg : Message)
    (evtNow : Nat)
    (hg : ¬(inst.config.autoReconnect = true ∧
        inst.reconnectAttempts < inst.config.maxReconnectAttempts)) :
    socketCloseEvent inst evtMsg evtNow
      = ({ inst with
            status := SocketStatus.closed
            lastActivity := evtNow
            messageQueue := pushWithLimit inst.config.messageHistoryLimit
              inst.messageQueue evtMsg }, none) := by
  simp only [socketCloseEvent, applyAddMessage, handleCloseReconnect]
  rw [if_neg]
  exact hg

theorem socketCloseEvent_some (inst : SocketInstance) (evtMsg : Message)
    (evtNow : Nat)
    (hauto : inst.config.autoReconnect = true)
    (hlt : inst.reconnectAttempts < inst.config.maxReconnectAttempts) :
    socketCloseEvent inst evtMsg evtNow
      = ({ inst with
            status := SocketStatus.closed
            lastActivity := evtNow
            messageQueue := pushWithLimit inst.config.messageHistoryLimit
              inst.messageQueue evtMsg
            reconnectAttempts := inst.reconnectAttempts + 1 },
         some (inst.config.reconnectInterval
            * 2 ^ (inst.reconnectAttempts + 1 - 1))) := by
  simp only [socketCloseEvent, applyAddMessage, handleCloseReconnect]
  rw [if_pos]
  exact ⟨hauto, hlt⟩

theorem cycles_status_closed_of_exhausted (n : Nat) (inst : SocketInstance)
    (evtMsg : Message) (hn : 1 ≤ n)
    (hle : inst.config.maxReconnectAttempts ≤ inst.reconnectAttempts) :
    (failedReconnectCycles inst evtMsg n).1.status = SocketStatus.closed := by
  induction n generalizing inst with
  | zero => omega
  | succ k ih =>
    have hstep := socketCloseEvent_none inst evtMsg evtMsg.timestamp
      (by rintro ⟨_, h⟩; omega)
    simp only [failedReconnectCycles, hstep]
    cases k with
    | zero => rfl
    | succ k2 =>
      exact ih _ (by omega) hle

theorem cycles_status_closed (n : Nat) (inst : SocketInstance)
    (evtMsg : Message)
    (hauto : inst.config.autoReconnect = true)
    (hlt : inst.config.maxReconnectAttempts - inst.reconnectAttempts < n) :
    (failedReconnectCycles inst evtMsg n).1.status = SocketStatus.closed := by
  induction n generalizing inst with
  | zero => omega
  | succ k ih =>
    by_cases hjlt : inst.reconnectAttempts < inst.config.maxReconnectAttempts
    · have hstep := socketCloseEvent_some inst evtMsg evtMsg.timestamp hauto hjlt
      simp only [failedReconnectCycles, hstep, reconnectFire, if_pos]
      exact ih _ hauto (by simp only; omega)
    · exact cycles_status_closed_of_exhausted (k + 1) inst evtMsg (by omega)
        (by omega)

theorem failedReconnectCycles_delays (n : Nat) (inst : SocketInstance)
    (evtMsg : Message)
    (hauto : inst.config.autoReconnect = true) :
    (failedReconnectCycles inst evtMsg n).2
      = (List.range
            (min n (inst.config.maxReconnectAttempts - inst.reconnectAttempts))).map
          (fun i => inst.config.reconnectInterval
            * 2 ^ (inst.reconnectAttempts + i)) := by
  induction n generalizing inst with
  | zero => simp [failedReconnectCycles]
  | succ k ih =>
    by_cases hjlt : inst.reconnectAttempts < inst.config.maxReconnectAttempts
    · have hstep := socketCloseEvent_some inst evtMsg evtMsg.timestamp hauto hjlt
      simp only [failedReconnectCycles, hstep, reconnectFire, if_pos]
      rw [ih { inst with
            readyState := 0
            status := SocketStatus.connecting
            messageQueue := pushWithLimit inst.config.messageHistoryLimit
              inst.messageQueue evtMsg
            reconnectAttempts := inst.reconnectAttempts + 1
            lastActivity := evtMsg.timestamp } hauto]
      dsimp only
      have hsub : inst.config.maxReconnectAttempts - inst.reconnectAttempts
          = (inst.config.maxReconnectAttempts - (inst.reconnectAttempts + 1)) + 1 := by
        omega
      rw [hsub, Nat.succ_min_succ, List.range_succ_eq_map]
      simp only [List.map_cons, List.map_map]
      refine List.cons_eq_cons.mpr ⟨?_, ?_⟩
      · congr 2
      · apply List.map_congr_left
        intro i _
        simp only [Function.comp_apply, Nat.succ_eq_add_one]
        congr 2
        omega
    · have hstep := socketCloseEvent_none inst evtMsg evtMsg.timestamp
        (by rintro ⟨_, h⟩; exact hjlt h)
      simp only [failedReconnectCycles, hstep]
      rw [ih { inst with
            status := SocketStatus.closed
            lastActivity := evtMsg.timestamp
            messageQueue := pushWithLimit inst.config.messageHistoryLimit
              inst.messageQueue evtMsg } hauto]
      dsimp only
      have hz : inst.config.maxReconnectAttempts - inst.reconnectAttempts = 0 := by
        omega
      rw [hz]
      have ha : k ⊓ 0 = 0 := by omega
      have hb : (k + 1) ⊓ 0 = 0 := by omega
      rw [ha, hb]

/-- Claim C3: with `autoReconnect = true` and `maxReconnectAttempts = M`,
    over any number of consecutive peer-initiated closes (each scheduled
    retry failing again) at most `M` reconnect attempts are ever
    scheduled, the delay before attempt `a` is
    `reconnectInterval * 2 ^ (a - 1)` (so consecutive delays double), and
    once the `M` attempts are exhausted a further peer-close schedules
    nothing and the session stays `closed`. -/
theorem reconnect_backoff (inst : SocketInstance) (evtMsg : Message)
    (M I n : Nat)
    (hauto : inst.config.autoReconnect = true)
    (hM : inst.config.maxReconnectAttempts = M)
    (hI : inst.config.reconnectInterval = I)
    (h0 : inst.reconnectAttempts = 0) :
    (failedReconnectCycles inst evtMsg n).2
      = (List.range (min n M)).map (fun i => I * 2 ^ i) ∧
    (failedReconnectCycles inst evtMsg n).2.length ≤ M ∧
    (∀ a, 1 ≤ a → a ≤ min n M →
      ((failedReconnectCycles inst evtMsg n).2)[a - 1]?
        = some (I * 2 ^ (a - 1))) ∧
    (∀ a, a + 1 < (failedReconnectCycles inst evtMsg n).2.length →
      ((failedReconnectCycles inst evtMsg n).2)[a + 1]?
        = (((failedReconnectCycles inst evtMsg n).2)[a]?).map (fun d => 2 * d)) ∧
    (M < n →
      (failedReconnectCycles inst evtMsg n).1.status = SocketStatus.closed ∧
      (failedReconnectCycles inst evtMsg n).2.length = M) := by
  have hform := failedReconnectCycles_delays n inst evtMsg hauto
  rw [hM, hI, h0, Nat.sub_zero] at hform
  have hform' : (failedReconnectCycles inst evtMsg n).2
      = (List.range (min n M)).map (fun i => I * 2 ^ i) := by
    rw [hform]
    apply List.map_congr_left
    intro i _
    rw [Nat.zero_add]
  refine ⟨hform', ?_, ?_, ?_, ?_⟩
  · rw [hform']
    simp only [List.length_map, List.length_range]
    omega
  · intro a ha1 ha2
    rw [hform', List.getElem?_map, List.getElem?_range (by omega)]
    rfl
  · intro a hlen
    rw [hform'] at hlen
    simp only [List.length_map, List.length_range] at hlen
    rw [hform', List.getElem?_map, List.getElem?_map,
      List.getElem?_range (by omega), List.getElem?_range (by omega)]
    simp only [Option.map_some']
    congr 1
    rw [pow_succ]
    ring
  · intro hMn
    refine ⟨?_, ?_⟩
    · exact cycles_status_closed n inst evtMsg hauto (by omega)
    · rw [hform']
      simp only [List.length_map, List.length_range]
      omega

/-- Witness for claim C3: `maxReconnectAttempts = 3`,
    `reconnectInterval = 1000`, four consecutive peer-closes. -/
theorem reconnect_backoff_witness :
    (failedReconnectCycles reconnectInst (demoMsg 1) 4).2
      = (List.range (min 4 3)).map (fun i => 1000 * 2 ^ i) ∧
    (failedReconnectCycles reconnectInst (demoMsg 1) 4).2.length ≤ 3 ∧
    (∀ a, 1 ≤ a → a ≤ min 4 3 →
      ((failedReconnectCycles reconnectInst (demoMsg 1) 4).2)[a - 1]?
        = some (1000 * 2 ^ (a - 1))) ∧
    (∀ a, a + 1 < (failedReconnectCycles reconnectInst (demoMsg 1) 4).2.length →
      ((failedReconnectCycles reconnectInst (demoMsg 1) 4).2)[a + 1]?
        = (((failedReconnectCycles reconnectInst (demoMsg 1) 4).2)[a]?).map
            (fun d => 2 * d)) ∧
    (3 < 4 →
      (failedReconnectCycles reconnectInst (demoMsg 1) 4).1.status
        = SocketStatus.closed ∧
      (failedReconnectCycles reconnectInst (demoMsg 1) 4).2.length = 3) :=
  reconnect_backoff reconnectInst (demoMsg 1) 3 1000 4 rfl rfl rfl rfl

end McpBrowse
